import Mathlib

/-!
Verification of the native-messaging HTTP bridge host
(`src/http-server-host.py`).

The host speaks a length-prefixed framed protocol over stdin/stdout
(4-byte native-endian unsigned length, then that many UTF-8 JSON
bytes), runs an HTTP listener in a background thread, and dispatches
control messages (`start_server`, `stop_server`, `ping`, unknown).

Modelling conventions:
* Byte streams are `List Nat` (each element one byte, `< 256`); the
  native byte order of the supported platforms (x86-64, arm64) is
  little-endian, so the 4-byte prefix `struct.pack` with format `@I`
  is modelled as little-endian.
* `sys.stdin.buffer.read(k)` returns at most `k` bytes and fewer only
  at EOF, so a read of `k` from a stream `s` is `s.take k`.
* Strings on the Python side are sequences of Unicode code points;
  they are modelled as `List Nat` of code points where the byte/code
  point distinction matters, and as Lean `String` inside JSON values.
* External effects (the peer process, JSON parsing by `json.loads`,
  serialization by `json.dumps`, wall-clock time, thread liveness)
  are passed in explicitly as function or value parameters.
-/

namespace HttpHost

/-! ## 4-byte length prefix (struct.pack / struct.unpack with format @I) -/

/-- The 4 bytes of `struct.pack` format `@I` applied to `n` (native =
little-endian byte order); `struct.pack` itself demands `n < 2 ^ 32`. -/
def toLE4 (n : Nat) : List Nat :=
  [n % 256, n / 256 % 256, n / 65536 % 256, n / 16777216 % 256]

/-- `struct.unpack` with format `@I` on a 4-byte buffer. -/
def fromLE4 : List Nat → Nat
  | [a, b, c, d] => a + b * 256 + c * 65536 + d * 16777216
  | _ => 0

theorem fromLE4_toLE4 (n : Nat) (h : n < 4294967296) : fromLE4 (toLE4 n) = n := by
  simp only [toLE4, fromLE4]
  omega

/-! ## Frame reading

Both read paths of the source are the same code shape:
* `run_native_messaging_loop` (lines 187-196): `read(4)`; if fewer
  than 4 bytes, break (peer EOF); unpack the length; `read(length)`;
  if fewer than `length` bytes, break.
* `send_to_extension` (lines 112-121): identical reads, with the two
  abort branches raising exceptions instead of breaking.
`readFrame` embeds this shared shape; `ReadErr.channelClosed` names
the first abort branch (fewer than 4 prefix bytes) and
`ReadErr.truncatedFrame` the second (fewer than `length` payload
bytes). -/

inductive ReadErr where
  | channelClosed
  | truncatedFrame
deriving DecidableEq

/-- Read one frame from the available bytes of the stream: the
payload bytes plus the remaining bytes of the stream on success. -/
def readFrame (stream : List Nat) : Except ReadErr (List Nat × List Nat) :=
  let lenBytes := stream.take 4
  if lenBytes.length < 4 then Except.error ReadErr.channelClosed
  else
    let n := fromLE4 lenBytes
    let rest := stream.drop 4
    let payload := rest.take n
    if payload.length < n then Except.error ReadErr.truncatedFrame
    else Except.ok (payload, rest.drop n)

/-! ## UTF-8 codec

`.encode('utf-8')` and `.decode('utf-8')` on the Python side.  Code
points are `Nat`; the strict decoder rejects what CPython rejects
(stray continuation bytes, overlong forms, surrogates, code points
above 0x10FFFF, truncated sequences). -/

/-- A Unicode scalar value: what a Python `str` character produced by
`json.loads` can be, and what `.encode('utf-8')` accepts. -/
def ValidCp (c : Nat) : Prop := c < 0xD800 ∨ (0xE000 ≤ c ∧ c < 0x110000)

instance (c : Nat) : Decidable (ValidCp c) := by
  unfold ValidCp; infer_instance

/-- UTF-8 encoding of one code point (1 to 4 bytes). -/
def utf8EncodeChar (c : Nat) : List Nat :=
  if c < 0x80 then [c]
  else if c < 0x800 then [0xC0 + c / 64, 0x80 + c % 64]
  else if c < 0x10000 then
    [0xE0 + c / 4096, 0x80 + c / 64 % 64, 0x80 + c % 64]
  else
    [0xF0 + c / 262144, 0x80 + c / 4096 % 64, 0x80 + c / 64 % 64, 0x80 + c % 64]

/-- UTF-8 encoding of a sequence of code points. -/
def utf8Encode : List Nat → List Nat
  | [] => []
  | c :: cs => utf8EncodeChar c ++ utf8Encode cs

/-- Is `b` a UTF-8 continuation byte? -/
def utf8IsCont (b : Nat) : Bool := 0x80 ≤ b && b < 0xC0

/-- Decode one UTF-8 sequence from the front of the bytes, returning
the code point and the remaining bytes; `none` on any byte sequence
CPython's strict `.decode('utf-8')` rejects at that position. -/
def utf8DecodeChar : List Nat → Option (Nat × List Nat)
  | [] => none
  | b0 :: r =>
    if b0 < 0x80 then some (b0, r)
    else if b0 < 0xC2 then none
    else if b0 < 0xE0 then
      match r with
      | b1 :: r1 =>
        if utf8IsCont b1 then some ((b0 - 0xC0) * 64 + (b1 - 0x80), r1) else none
      | [] => none
    else if b0 < 0xF0 then
      match r with
      | b1 :: b2 :: r2 =>
        if utf8IsCont b1 && utf8IsCont b2 then
          let c := (b0 - 0xE0) * 4096 + (b1 - 0x80) * 64 + (b2 - 0x80)
          if c < 0x800 ∨ (0xD800 ≤ c ∧ c < 0xE000) then none else some (c, r2)
        else none
      | _ => none
    else if b0 < 0xF5 then
      match r with
      | b1 :: b2 :: b3 :: r3 =>
        if utf8IsCont b1 && utf8IsCont b2 && utf8IsCont b3 then
          let c := (b0 - 0xF0) * 262144 + (b1 - 0x80) * 4096
                   + (b2 - 0x80) * 64 + (b3 - 0x80)
          if c < 0x10000 ∨ 0x110000 ≤ c then none else some (c, r3)
        else none
      | _ => none
    else none

/-- Fuelled strict decoder; each step consumes at least one byte, so
fuel equal to the byte count always suffices. -/
def utf8DecodeAux : Nat → List Nat → Option (List Nat)
  | _, [] => some []
  | 0, _ :: _ => none
  | fuel + 1, b :: bs =>
    match utf8DecodeChar (b :: bs) with
    | none => none
    | some (c, r) => (utf8DecodeAux fuel r).map (c :: ·)

/-- Strict UTF-8 decode: `bytes.decode('utf-8')`, `none` meaning
`UnicodeDecodeError`. -/
def utf8Decode (l : List Nat) : Option (List Nat) := utf8DecodeAux l.length l

/-- Fuelled lenient decoder: on an undecodable position, drop one byte
and continue. -/
def utf8DecodeIgnoreAux : Nat → List Nat → List Nat
  | _, [] => []
  | 0, _ :: _ => []
  | fuel + 1, b :: bs =>
    match utf8DecodeChar (b :: bs) with
    | some (c, r) => c :: utf8DecodeIgnoreAux fuel r
    | none => utf8DecodeIgnoreAux fuel bs

/-- Lenient UTF-8 decode: `bytes.decode('utf-8', errors='ignore')` —
total, undecodable bytes are silently dropped. -/
def utf8DecodeIgnore (l : List Nat) : List Nat := utf8DecodeIgnoreAux l.length l

/-- Code points to a Lean `String` (all inputs we feed it are valid
scalar values, where `Char.ofNat` is exact). -/
def cpsToString (cps : List Nat) : String := String.mk (cps.map Char.ofNat)

/-! ## Frame writing

`send_to_extension` lines 106-109 and the loop's reply lines 217-220:
`json.dumps(...).encode('utf-8')`, then the packed length, then the
bytes, then flush.  `writeFrame` takes the payload as code points and
appends the encoded frame to the bytes already written. -/

def writeFrame (written : List Nat) (payload : List Nat) : List Nat :=
  written ++ toLE4 (utf8Encode payload).length ++ utf8Encode payload

/-! ## JSON values

The universe of values `json.loads` can produce and `json.dumps` can
consume (floats are not used by any message of this protocol). -/

inductive J where
  | null
  | bool (b : Bool)
  | int (n : Int)
  | str (s : String)
  | arr (elems : List J)
  | obj (fields : List (String × J))

/-- `d.get(key, dflt)` on a dict: first binding of `key`, else the
default (`json.loads` produces dicts, whose keys are unique). -/
def alistGetD (kvs : List (String × J)) (key : String) (dflt : J) : J :=
  match kvs.find? (fun p => p.1 == key) with
  | some p => p.2
  | none => dflt

/-- Python's `type(v).__name__` for each JSON-derived value. -/
def pyTypeName : J → String
  | J.null => "NoneType"
  | J.bool _ => "bool"
  | J.int _ => "int"
  | J.str _ => "str"
  | J.arr _ => "list"
  | J.obj _ => "dict"

/-- The message of the `AttributeError` raised by `v.get(...)` when
`v` is not a dict. -/
def pyGetAttrErrMsg (v : J) : String :=
  "\x27" ++ pyTypeName v ++ "\x27 object has no attribute \x27get\x27"

/-- `v.get(key, dflt)` as Python evaluates it: an `AttributeError`
(modelled as `Except.error` carrying `str(e)`) when `v` is not a
dict. -/
def pyGet (v : J) (key : String) (dflt : J) : Except String J :=
  match v with
  | J.obj kvs => Except.ok (alistGetD kvs key dflt)
  | _ => Except.error (pyGetAttrErrMsg v)

mutual

/-- Python `repr` of a JSON-derived value (used by `str` and f-string
formatting of containers). -/
def pyReprOf : J → String
  | J.null => "None"
  | J.bool b => if b then "True" else "False"
  | J.int n => toString n
  | J.str s => "\x27" ++ s ++ "\x27"
  | J.arr xs => "[" ++ pyReprList xs ++ "]"
  | J.obj kvs => "\x7b" ++ pyReprObj kvs ++ "\x7d"

def pyReprList : List J → String
  | [] => ""
  | [x] => pyReprOf x
  | x :: xs => pyReprOf x ++ ", " ++ pyReprList xs

def pyReprObj : List (String × J) → String
  | [] => ""
  | [(k, v)] => "\x27" ++ k ++ "\x27: " ++ pyReprOf v
  | (k, v) :: kvs => "\x27" ++ k ++ "\x27: " ++ pyReprOf v ++ ", " ++ pyReprObj kvs

end

/-- Python `str` of a JSON-derived value, as an f-string renders it. -/
def pyStrOf : J → String
  | J.str s => s
  | v => pyReprOf v

/-- `v == s` for a Python string literal `s`: equal strings, and
`False` whenever `v` is not a string. -/
def isTag (v : J) (s : String) : Bool :=
  match v with
  | J.str t => t == s
  | _ => false

/-! ## NativeMessagingHost state and the control dispatcher

`self.server_thread`/liveness is abstracted to the one bit the code
branches on: `serverRunning` models
`self.server_thread and self.server_thread.is_alive()`.
Thread liveness 0.5 s after spawning (i.e. whether the bind in
`run_server` succeeded) is an external fact, passed in as `bindOk`;
the current wall clock `int(time.time() * 1000)` is passed as `ts`. -/

structure Host where
  serverRunning : Bool
deriving DecidableEq

/-- `NativeMessagingHost.__init__`: no thread yet. -/
def hostInit : Host := { serverRunning := false }

/-- `start_http_server` (lines 149-172): early-return `True` when the
server thread is alive; otherwise spawn the thread and report whether
it is still alive after the startup wait. -/
def startHttpServer (bindOk : Bool) (h : Host) : Bool × Host :=
  if h.serverRunning then (true, h)
  else (bindOk, { serverRunning := bindOk })

/-- `stop_http_server` (lines 174-177): the body only logs — it does
not touch the server thread or any state. -/
def stopHttpServer (h : Host) : Host := h

/-- `handle_message` (lines 231-261) on a dict `data` given as its
key/value pairs. -/
def handleMessage (bindOk : Bool) (ts : Int) (h : Host)
    (kvs : List (String × J)) : J × Host :=
  let messageType := alistGetD kvs "type" (J.str "")
  if isTag messageType "start_server" then
    let port := alistGetD kvs "port" (J.int 8765)
    let r := startHttpServer bindOk h
    (J.obj [("type", J.str "server_started"), ("success", J.bool r.1),
            ("port", port)], r.2)
  else if isTag messageType "stop_server" then
    (J.obj [("type", J.str "server_stopped"), ("success", J.bool true)],
     stopHttpServer h)
  else if isTag messageType "ping" then
    (J.obj [("type", J.str "pong"), ("timestamp", J.int ts)], h)
  else
    (J.obj [("type", J.str "unknown"),
            ("error", J.str ("Unknown message type: " ++ pyStrOf messageType))], h)

/-- The loop body's dispatch on the parse result (lines 200-214):
`json.loads` failure gives the fixed `Invalid JSON format` reply; a
non-dict value makes `handle_message`'s `data.get` raise an
`AttributeError`, caught by the generic handler which replies with
`str(e)`; a dict goes to `handle_message`. -/
def loopHandle (bindOk : Bool) (ts : Int) (h : Host) (parsed : Option J) :
    J × Host :=
  match parsed with
  | none =>
    (J.obj [("type", J.str "error"), ("error", J.str "Invalid JSON format")], h)
  | some d =>
    match d with
    | J.obj kvs => handleMessage bindOk ts h kvs
    | v =>
      (J.obj [("type", J.str "error"), ("error", J.str (pyGetAttrErrMsg v))], h)

/-- Outcome of one iteration of `run_native_messaging_loop`: either
the loop ends (EOF, truncated frame, or an exception reaching the
outer handler), or a reply frame is written and the loop continues
with the new host state. -/
inductive LoopOutcome where
  | halted
  | replied (resp : J) (h : Host)

/-- One iteration of `run_native_messaging_loop` (lines 185-220):
read a frame; on a short read, break; decode the payload strictly
(`message_bytes.decode('utf-8')` at line 198 sits outside the inner
`try`, so a `UnicodeDecodeError` reaches the outer handler and ends
the loop); parse it with `json.loads` (`jsonLoads`, an oracle for the
library parser, applied to the decoded code points) and dispatch. -/
def loopIter (jsonLoads : List Nat → Option J) (bindOk : Bool) (ts : Int)
    (h : Host) (stdin : List Nat) : LoopOutcome :=
  match readFrame stdin with
  | Except.error _ => LoopOutcome.halted
  | Except.ok (payload, _) =>
    match utf8Decode payload with
    | none => LoopOutcome.halted
    | some cps =>
      let r := loopHandle bindOk ts h (jsonLoads cps)
      LoopOutcome.replied r.1 r.2

/-- A `json.loads` oracle fixed on the inputs the concrete frames
below exercise: the two-byte payload of an opening and a closing
brace is the empty dict (as `json.loads` parses it); everything else
is reported unparseable. -/
def jsonLoadsEmptyObj : List Nat → Option J :=
  fun cps => if cps = [123, 125] then some (J.obj []) else none

/-! ## HTTP front door (ChatGPTAPIHandler)

A response is its status code, its header lines in the order the
handler emits them, and the body bytes written after the headers.
`json.dumps(data, ensure_ascii=False).encode('utf-8')` is abstracted
as a serializer parameter `ser : J → List Nat`. -/

structure HttpResponse where
  status : Int
  headers : List (String × String)
  body : List Nat
deriving DecidableEq

/-- The three CORS headers, as emitted both by `do_OPTIONS`
(lines 29-31) and by `send_json_response` (lines 94-96). -/
def corsHeaders : List (String × String) :=
  [("Access-Control-Allow-Origin", "*"),
   ("Access-Control-Allow-Methods", "GET, POST, PUT, DELETE, OPTIONS"),
   ("Access-Control-Allow-Headers", "Content-Type, Authorization")]

/-- `send_json_response` (lines 88-100): serialize the data, emit
content type, the CORS headers, and a Content-Length equal to the
length of the exact bytes written as the body. -/
def sendJsonResponse (ser : J → List Nat) (statusCode : Int) (data : J) :
    HttpResponse :=
  { status := statusCode
  , headers :=
      ("Content-Type", "application/json; charset=utf-8") :: corsHeaders
        ++ [("Content-Length", toString (ser data).length)]
  , body := ser data }

/-- `do_OPTIONS` (lines 26-32): 200, only the CORS headers, no body. -/
def doOPTIONS : HttpResponse :=
  { status := 200, headers := corsHeaders, body := [] }

/-- `do_GET` (lines 34-43). -/
def doGET (ser : J → List Nat) (path : String) (ts : Int) : HttpResponse :=
  if path == "/health" || path == "/api/health" then
    sendJsonResponse ser 200
      (J.obj [("status", J.str "healthy"), ("timestamp", J.int ts),
              ("service", J.str "chatgpt-api-server")])
  else
    sendJsonResponse ser 404 (J.obj [("error", J.str "Endpoint not found")])

/-- The `request_data` dict built by `do_POST` (lines 52-58) and
`do_DELETE` (lines 73-79); `body` is already a Python string here. -/
def mkHttpEnvelope (method : String) (path : String)
    (headers : List (String × String)) (body : String) : J :=
  J.obj [("type", J.str "http_request"), ("method", J.str method),
         ("path", J.str path),
         ("headers", J.obj (headers.map (fun p => (p.1, J.str p.2)))),
         ("body", J.str body)]

/-- `send_to_extension` (lines 102-131).  The whole effectful exchange
— dumping and framing the request, the peer's behaviour, reading and
parsing the response frame — is the oracle
`exch : J → Except String J`: `Except.ok` is the parsed response JSON,
`Except.error` carries `str(e)` of whichever exception the `try`
block raised (short read, truncated read, bad UTF-8, bad JSON,
oversized frame at `struct.pack`, ...).  Any such failure is caught
and turned into the synthetic 503 envelope (lines 126-131). -/
def sendToExtension (exch : J → Except String J) (data : J) : J :=
  match exch data with
  | Except.ok resp => resp
  | Except.error e =>
    J.obj [("status", J.int 503),
           ("body", J.obj [("error",
              J.str ("Extension communication error: " ++ e))])]

/-- The status argument reaching `send_response` must format with
`%d`; a non-integer raises a `TypeError` inside `send_json_response`,
still inside the handler's `try`. -/
def pyIntCast (v : J) : Except String Int :=
  match v with
  | J.int n => Except.ok n
  | v => Except.error ("%d format: a number is required, not " ++ pyTypeName v)

/-- The shared tail of the `try` blocks of `do_POST` (lines 61-64)
and `do_DELETE` (lines 81-82): run the exchange, then
`response.get('status', 200)` and `response.get('body', ...)` feed
`send_json_response` (whose `%d` status formatting needs an
integer).  `Except.error` carries `str(e)` of an exception that would
reach the handler's `except` clause. -/
def bridgeRespond (exch : J → Except String J) (envelope : J) :
    Except String (Int × J) :=
  let response := sendToExtension exch envelope
  match pyGet response "status" (J.int 200) with
  | Except.error e => Except.error e
  | Except.ok s =>
    match pyGet response "body" (J.obj []) with
    | Except.error e => Except.error e
    | Except.ok b =>
      match pyIntCast s with
      | Except.error e => Except.error e
      | Except.ok sInt => Except.ok (sInt, b)

/-- The `try` block of `do_POST` (lines 50-64): build the envelope —
the body is decoded with `errors='ignore'`, which cannot fail — and
run the shared exchange-and-reply tail. -/
def doPOSTTry (exch : J → Except String J) (path : String)
    (headers : List (String × String)) (bodyBytes : List Nat) :
    Except String (Int × J) :=
  bridgeRespond exch
    (mkHttpEnvelope "POST" path headers (cpsToString (utf8DecodeIgnore bodyBytes)))

/-- The `try`/`except` of `do_POST` (lines 50-68): the `try` block on
the already-read body bytes, with the `except` branch replying 500
with the exception text.  The full method, including the two
statements before the `try` (lines 47-48), is `doPOSTMethod` below. -/
def doPOST (ser : J → List Nat) (exch : J → Except String J) (path : String)
    (headers : List (String × String)) (bodyBytes : List Nat) : HttpResponse :=
  match doPOSTTry exch path headers bodyBytes with
  | Except.ok (s, b) => sendJsonResponse ser s b
  | Except.error e => sendJsonResponse ser 500 (J.obj [("error", J.str e)])

/-- The `try` block of `do_DELETE` (lines 72-82): same shape as
`do_POST` with an empty body string. -/
def doDELETETry (exch : J → Except String J) (path : String)
    (headers : List (String × String)) : Except String (Int × J) :=
  bridgeRespond exch (mkHttpEnvelope "DELETE" path headers "")

/-- `do_DELETE` (lines 70-86); its `try` covers the whole method
body, so there is no pre-`try` failure path here. -/
def doDELETE (ser : J → List Nat) (exch : J → Except String J) (path : String)
    (headers : List (String × String)) : HttpResponse :=
  match doDELETETry exch path headers with
  | Except.ok (s, b) => sendJsonResponse ser s b
  | Except.error e => sendJsonResponse ser 500 (J.obj [("error", J.str e)])

/-- The value of a run of decimal digit characters. -/
def digitsToNat (ds : List Char) : Nat :=
  ds.foldl (fun a c => a * 10 + (c.toNat - 48)) 0

/-- Python `int(s)` on a string: surrounding whitespace is stripped,
then an optional sign followed by at least one decimal digit;
anything else raises `ValueError`, modelled as `none`.  (Python
additionally allows underscores between digits and non-ASCII decimal
digits; no theorem below depends on those corners.) -/
def pyStrToInt (s : String) : Option Int :=
  let cs := ((s.toList.dropWhile Char.isWhitespace).reverse.dropWhile
      Char.isWhitespace).reverse
  match cs with
  | [] => none
  | c :: rest =>
    let signed : Bool × List Char :=
      if c = '-' then (true, rest)
      else if c = '+' then (false, rest)
      else (false, c :: rest)
    if signed.2.isEmpty then none
    else if signed.2.all Char.isDigit then
      some (if signed.1 then -(digitsToNat signed.2 : Int) else (digitsToNat signed.2 : Int))
    else none

/-- `int(self.headers.get('Content-Length', 0))` at line 47: the
integer 0 itself when the header is absent, else the header value
parsed by `int()`. -/
def pyIntOfHeader (v : Option String) : Option Int :=
  match v with
  | none => some 0
  | some s => pyStrToInt s

/-- `self.rfile.read(content_length)` at line 48: at most
`content_length` bytes of the connection's available body data; a
negative argument makes `BufferedReader.read` read to EOF. -/
def pyRead (available : List Nat) (n : Int) : List Nat :=
  if n < 0 then available else available.take n.toNat

/-- Outcome of the whole `do_POST` method: either a response is sent,
or an exception escaped the handler (nothing is sent — socketserver
logs the traceback and the connection is closed). -/
inductive PostOutcome where
  | response (r : HttpResponse)
  | crashed
deriving DecidableEq

/-- `do_POST` in full (lines 45-68), including the two statements
before the `try`: line 47 parses the Content-Length header (the
lookup result on the same header object is passed here as
`contentLengthHeader`) and raises `ValueError` out of the handler on
a non-numeric value — no response at all in that case; line 48 reads
the body bytes; then the `try` block (`doPOST`) runs on them. -/
def doPOSTMethod (ser : J → List Nat) (exch : J → Except String J)
    (path : String) (headers : List (String × String))
    (contentLengthHeader : Option String) (available : List Nat) : PostOutcome :=
  match pyIntOfHeader contentLengthHeader with
  | none => PostOutcome.crashed
  | some n => PostOutcome.response (doPOST ser exch path headers (pyRead available n))

/-! ## Task structure of the process

Who reads `sys.stdin.buffer`: the main thread loops in
`run_native_messaging_loop` (blocking read at line 187, then
dispatch, then back to the read); each HTTP connection is handled on
the `TCPServer` thread started by `start_http_server`, and a POST or
DELETE handler calls `send_to_extension`, which writes the request
frame and then blocks reading `sys.stdin.buffer` at line 112.  The
states and transitions below are these control points of the source;
`bridgeReaders` counts handler calls currently blocked inside
`send_to_extension`'s reads. -/

inductive CtlLoc where
  | reading
  | dispatching
deriving DecidableEq

structure BridgeSys where
  ctl : CtlLoc
  bridgeReaders : Nat
  serverRunning : Bool
deriving DecidableEq

/-- Process start: `main` enters the messaging loop and blocks on the
first read; no HTTP server yet. -/
def initSys : BridgeSys :=
  { ctl := CtlLoc.reading, bridgeReaders := 0, serverRunning := false }

/-- Interleaved execution steps of the process, one constructor per
control transfer in the source. -/
inductive BStep : BridgeSys → BridgeSys → Prop where
  | frameToLoop (s : BridgeSys) :
      s.ctl = CtlLoc.reading →
      BStep s { s with ctl := CtlLoc.dispatching }
      -- the blocking read at line 187 returns a frame to the main loop
  | handleStart (s : BridgeSys) :
      s.ctl = CtlLoc.dispatching →
      BStep s { s with ctl := CtlLoc.reading, serverRunning := true }
      -- the frame was a successful start_server: handle_message spawns
      -- the HTTP server thread, the loop writes its reply and returns
      -- to the read at line 187
  | handleOther (s : BridgeSys) :
      s.ctl = CtlLoc.dispatching →
      BStep s { s with ctl := CtlLoc.reading }
      -- any other control message: reply written, back to the read
  | httpExchangeBegins (s : BridgeSys) :
      s.serverRunning = true →
      BStep s { s with bridgeReaders := s.bridgeReaders + 1 }
      -- a POST/DELETE handler on the HTTP thread enters
      -- send_to_extension: it writes the request frame and blocks
      -- reading sys.stdin.buffer at line 112
  | bridgeGetsFrame (s : BridgeSys) :
      0 < s.bridgeReaders →
      BStep s { s with bridgeReaders := s.bridgeReaders - 1 }
      -- a waiting send_to_extension call completes its reads

/-- Reachability from the initial state. -/
def Reach (s : BridgeSys) : Prop := Relation.ReflTransGen BStep initSys s

/-! ## Codec lemmas -/

theorem utf8EncodeChar_ne_nil (c : Nat) : utf8EncodeChar c ≠ [] := by
  unfold utf8EncodeChar
  split_ifs <;> simp

theorem utf8DecodeChar_encodeChar (c : Nat) (hv : ValidCp c) (rest : List Nat) :
    utf8DecodeChar (utf8EncodeChar c ++ rest) = some (c, rest) := by
  have hv' : c < 0x110000 := by
    rcases hv with h | ⟨_, h⟩ <;> omega
  by_cases h1 : c < 0x80
  · simp only [utf8EncodeChar, if_pos h1, List.cons_append, List.nil_append,
      utf8DecodeChar, if_pos h1]
  by_cases h2 : c < 0x800
  · have e1 : ¬ (0xC0 + c / 64 < 0x80) := by omega
    have e2 : ¬ (0xC0 + c / 64 < 0xC2) := by omega
    have e3 : 0xC0 + c / 64 < 0xE0 := by omega
    have e4 : utf8IsCont (0x80 + c % 64) = true := by
      simp only [utf8IsCont, Bool.and_eq_true, decide_eq_true_eq]
      omega
    simp only [utf8EncodeChar, if_neg h1, if_pos h2, List.cons_append,
      List.nil_append, utf8DecodeChar, if_neg e1, if_neg e2, if_pos e3,
      if_pos e4, Option.some.injEq, Prod.mk.injEq]
    exact ⟨by omega, trivial⟩
  by_cases h3 : c < 0x10000
  · have hs : ¬ (0xD800 ≤ c ∧ c < 0xE000) := by
      rcases hv with h | ⟨h, _⟩ <;> omega
    have e1 : ¬ (0xE0 + c / 4096 < 0x80) := by omega
    have e2 : ¬ (0xE0 + c / 4096 < 0xC2) := by omega
    have e3 : ¬ (0xE0 + c / 4096 < 0xE0) := by omega
    have e4 : 0xE0 + c / 4096 < 0xF0 := by omega
    have e5 : (utf8IsCont (0x80 + c / 64 % 64) && utf8IsCont (0x80 + c % 64)) = true := by
      simp only [utf8IsCont, Bool.and_eq_true, decide_eq_true_eq]
      omega
    have eval : (0xE0 + c / 4096 - 0xE0) * 4096 + (0x80 + c / 64 % 64 - 0x80) * 64
        + (0x80 + c % 64 - 0x80) = c := by omega
    have e6 : ¬ ((0xE0 + c / 4096 - 0xE0) * 4096 + (0x80 + c / 64 % 64 - 0x80) * 64
        + (0x80 + c % 64 - 0x80) < 0x800 ∨
        (0xD800 ≤ (0xE0 + c / 4096 - 0xE0) * 4096 + (0x80 + c / 64 % 64 - 0x80) * 64
          + (0x80 + c % 64 - 0x80) ∧
         (0xE0 + c / 4096 - 0xE0) * 4096 + (0x80 + c / 64 % 64 - 0x80) * 64
          + (0x80 + c % 64 - 0x80) < 0xE000)) := by
      rw [eval]
      push_neg
      exact ⟨by omega, fun h => by omega⟩
    simp only [utf8EncodeChar, if_neg h1, if_neg h2, if_pos h3, List.cons_append,
      List.nil_append, utf8DecodeChar, if_neg e1, if_neg e2, if_neg e3, if_pos e4,
      if_pos e5, if_neg e6, Option.some.injEq, Prod.mk.injEq]
    exact ⟨eval, trivial⟩
  · have e1 : ¬ (0xF0 + c / 262144 < 0x80) := by omega
    have e2 : ¬ (0xF0 + c / 262144 < 0xC2) := by omega
    have e3 : ¬ (0xF0 + c / 262144 < 0xE0) := by omega
    have e4 : ¬ (0xF0 + c / 262144 < 0xF0) := by omega
    have e5 : 0xF0 + c / 262144 < 0xF5 := by omega
    have e6 : (utf8IsCont (0x80 + c / 4096 % 64) = true ∧ utf8IsCont (0x80 + c / 64 % 64) = true)
        ∧ utf8IsCont (0x80 + c % 64) = true := by
      simp only [utf8IsCont, Bool.and_eq_true, decide_eq_true_eq]
      omega
    have eval : (0xF0 + c / 262144 - 0xF0) * 262144 + (0x80 + c / 4096 % 64 - 0x80) * 4096
        + (0x80 + c / 64 % 64 - 0x80) * 64 + (0x80 + c % 64 - 0x80) = c := by omega
    have e7 : ¬ ((0xF0 + c / 262144 - 0xF0) * 262144 + (0x80 + c / 4096 % 64 - 0x80) * 4096
        + (0x80 + c / 64 % 64 - 0x80) * 64 + (0x80 + c % 64 - 0x80) < 0x10000 ∨
        0x110000 ≤ (0xF0 + c / 262144 - 0xF0) * 262144 + (0x80 + c / 4096 % 64 - 0x80) * 4096
        + (0x80 + c / 64 % 64 - 0x80) * 64 + (0x80 + c % 64 - 0x80)) := by
      rw [eval]
      push_neg
      exact ⟨by omega, by omega⟩
    simp only [utf8EncodeChar, if_neg h1, if_neg h2, if_neg h3, List.cons_append,
      List.nil_append, utf8DecodeChar, if_neg e1, if_neg e2, if_neg e3, if_neg e4,
      if_pos e5, Bool.and_eq_true, if_neg e7]
    rw [if_pos e6, eval]

theorem utf8DecodeAux_cons (fuel : Nat) (l r : List Nat) (c : Nat)
    (hne : l ≠ []) (hd : utf8DecodeChar l = some (c, r)) :
    utf8DecodeAux (fuel + 1) l = (utf8DecodeAux fuel r).map (c :: ·) := by
  cases l with
  | nil => exact absurd rfl hne
  | cons b bs => simp [utf8DecodeAux, hd]

theorem utf8DecodeAux_encode (cps : List Nat) : ∀ (fuel : Nat),
    (∀ c ∈ cps, ValidCp c) → cps.length ≤ fuel →
    utf8DecodeAux fuel (utf8Encode cps) = some cps := by
  induction cps with
  | nil => intro fuel _ _; cases fuel <;> simp [utf8Encode, utf8DecodeAux]
  | cons c cs ih =>
    intro fuel hv hf
    obtain ⟨f, rfl⟩ : ∃ f, fuel = f + 1 :=
      ⟨fuel - 1, by simp at hf; omega⟩
    have hne : utf8Encode (c :: cs) ≠ [] := by
      simp only [utf8Encode]
      intro h
      exact utf8EncodeChar_ne_nil c (List.append_eq_nil.mp h).1
    have hd : utf8DecodeChar (utf8Encode (c :: cs)) = some (c, utf8Encode cs) := by
      simp only [utf8Encode]
      exact utf8DecodeChar_encodeChar c (hv c (List.mem_cons_self c cs)) (utf8Encode cs)
    rw [utf8DecodeAux_cons f (utf8Encode (c :: cs)) (utf8Encode cs) c hne hd]
    rw [ih f (fun x hx => hv x (List.mem_cons_of_mem c hx)) (by simp at hf; omega)]
    rfl

theorem length_le_utf8Encode (cps : List Nat) :
    cps.length ≤ (utf8Encode cps).length := by
  induction cps with
  | nil => simp [utf8Encode]
  | cons c cs ih =>
    have h := utf8EncodeChar_ne_nil c
    have : 1 ≤ (utf8EncodeChar c).length := by
      cases hE : utf8EncodeChar c with
      | nil => exact absurd hE h
      | cons _ _ => simp
    simp only [utf8Encode, List.length_cons, List.length_append]
    omega

theorem utf8Decode_encode (cps : List Nat) (hv : ∀ c ∈ cps, ValidCp c) :
    utf8Decode (utf8Encode cps) = some cps := by
  unfold utf8Decode
  exact utf8DecodeAux_encode cps (utf8Encode cps).length hv (length_le_utf8Encode cps)

/-- Reading the frame written for a byte sequence of representable
length recovers exactly those bytes and leaves nothing over. -/
theorem readFrame_exact (bytes : List Nat) (h : bytes.length < 4294967296) :
    readFrame (toLE4 bytes.length ++ bytes) = Except.ok (bytes, []) := by
  have hlen : (toLE4 bytes.length).length = 4 := rfl
  have htake : ((toLE4 bytes.length ++ bytes).take 4) = toLE4 bytes.length := by
    rw [← hlen, List.take_left]
  have hdrop : ((toLE4 bytes.length ++ bytes).drop 4) = bytes := by
    rw [← hlen, List.drop_left]
  simp only [readFrame, htake, hdrop, hlen, fromLE4_toLE4 bytes.length h,
    List.take_length, List.drop_length, lt_irrefl, if_false]

theorem sendToExtension_ok {exch : J → Except String J} {d r : J}
    (h : exch d = Except.ok r) : sendToExtension exch d = r := by
  unfold sendToExtension
  rw [h]

theorem sendToExtension_error {exch : J → Except String J} {d : J} {e : String}
    (h : exch d = Except.error e) :
    sendToExtension exch d
      = J.obj [("status", J.int 503),
               ("body", J.obj [("error",
                  J.str ("Extension communication error: " ++ e))])] := by
  unfold sendToExtension
  rw [h]

theorem bridgeRespond_ok {exch : J → Except String J} {envelope : J}
    {kvs : List (String × J)} {s : Int} {b : J}
    (hex : exch envelope = Except.ok (J.obj kvs))
    (h1 : alistGetD kvs "status" (J.int 200) = J.int s)
    (h2 : alistGetD kvs "body" (J.obj []) = b) :
    bridgeRespond exch envelope = Except.ok (s, b) := by
  simp only [bridgeRespond, sendToExtension_ok hex, pyGet, h1, h2, pyIntCast]

theorem bridgeRespond_error {exch : J → Except String J} {envelope : J}
    {d : String} (hex : exch envelope = Except.error d) :
    bridgeRespond exch envelope
      = Except.ok (503, J.obj [("error",
          J.str ("Extension communication error: " ++ d))]) := by
  simp only [bridgeRespond, sendToExtension_error hex, pyGet, alistGetD,
    List.find?, pyIntCast]
  rfl

theorem bridgeRespond_nonObj {exch : J → Except String J} {envelope : J} {v : J}
    (hex : exch envelope = Except.ok v) (hnv : ∀ kvs, v ≠ J.obj kvs) :
    bridgeRespond exch envelope = Except.error (pyGetAttrErrMsg v) := by
  simp only [bridgeRespond, sendToExtension_ok hex]
  cases v with
  | obj kvs => exact absurd rfl (hnv kvs)
  | null => rfl
  | bool b => rfl
  | int n => rfl
  | str s => rfl
  | arr xs => rfl

/-! ## Claims -/

/-- C3: for every payload of valid Unicode scalar values whose UTF-8
encoding has a representable length, writing it as a frame (4-byte
native-endian length prefix, then the UTF-8 bytes) and reading one
frame back from the resulting bytes yields exactly the payload:
the frame read returns precisely the encoded bytes with nothing left
over, and strict UTF-8 decoding (as the reading loop performs at line
198) reconstructs the original code points. -/
theorem c3_frame_roundtrip (P : List Nat) (hv : ∀ c ∈ P, ValidCp c)
    (hlen : (utf8Encode P).length < 4294967296) :
    readFrame (writeFrame [] P) = Except.ok (utf8Encode P, []) ∧
    utf8Decode (utf8Encode P) = some P := by
  constructor
  · unfold writeFrame
    rw [List.nil_append]
    exact readFrame_exact (utf8Encode P) hlen
  · exact utf8Decode_encode P hv

/-- Witness for C3 at a four-character payload using 1-, 2-, 3- and
4-byte UTF-8 sequences, and at the empty payload. -/
theorem c3_frame_roundtrip_witness :
    ((∀ c ∈ ([72, 233, 20013, 128512] : List Nat), ValidCp c) ∧
     (utf8Encode [72, 233, 20013, 128512]).length < 4294967296 ∧
     (readFrame (writeFrame [] [72, 233, 20013, 128512])
        = Except.ok (utf8Encode [72, 233, 20013, 128512], []) ∧
      utf8Decode (utf8Encode [72, 233, 20013, 128512])
        = some [72, 233, 20013, 128512])) ∧
    (readFrame (writeFrame [] []) = Except.ok (utf8Encode [], []) ∧
     utf8Decode (utf8Encode []) = some []) :=
  ⟨⟨by decide, by decide,
    c3_frame_roundtrip [72, 233, 20013, 128512] (by decide) (by decide)⟩,
   c3_frame_roundtrip [] (by decide) (by decide)⟩

/-- C4: a frame read fails on the channel-closed branch whenever
fewer than 4 prefix bytes are available, fails on the truncated-frame
branch whenever fewer payload bytes than the declared length arrive
before EOF, and whenever it succeeds the payload has exactly the
declared length (never a partial frame) and is exactly the slice of
the stream after the prefix. -/
theorem c4_read_failures :
    (∀ stream : List Nat, stream.length < 4 →
       readFrame stream = Except.error ReadErr.channelClosed) ∧
    (∀ stream : List Nat, 4 ≤ stream.length →
       stream.length - 4 < fromLE4 (stream.take 4) →
       readFrame stream = Except.error ReadErr.truncatedFrame) ∧
    (∀ (stream payload rest : List Nat),
       readFrame stream = Except.ok (payload, rest) →
       payload.length = fromLE4 (stream.take 4) ∧
       stream = stream.take 4 ++ payload ++ rest) := by
  refine ⟨?_, ?_, ?_⟩
  · intro stream h
    have h4 : (stream.take 4).length < 4 := by
      simp only [List.length_take]
      omega
    simp only [readFrame, if_pos h4]
  · intro stream hge hlt
    have h4 : ¬ (stream.take 4).length < 4 := by
      simp only [List.length_take]
      omega
    have h5 : ((stream.drop 4).take (fromLE4 (stream.take 4))).length
        < fromLE4 (stream.take 4) := by
      simp only [List.length_take, List.length_drop]
      omega
    simp only [readFrame, if_neg h4, if_pos h5]
  · intro stream payload rest h
    simp only [readFrame] at h
    split_ifs at h with h1 h2
    all_goals
      simp only [Except.ok.injEq, Prod.mk.injEq] at h
      obtain ⟨hp, hr⟩ := h
      subst hp
      subst hr
      constructor
      · simp only [List.length_take, List.length_drop] at h2 ⊢
        omega
      · rw [List.append_assoc, List.take_append_drop, List.take_append_drop]

/-- Witness for C4: a 2-byte stream (closed), a frame declaring 5
payload bytes with only 2 available (truncated), and a complete
1-byte frame (full payload, nothing partial). -/
theorem c4_read_failures_witness :
    (([0, 1] : List Nat).length < 4 ∧
     readFrame [0, 1] = Except.error ReadErr.channelClosed) ∧
    (4 ≤ (toLE4 5 ++ [1, 2]).length ∧
     (toLE4 5 ++ [1, 2]).length - 4 < fromLE4 ((toLE4 5 ++ [1, 2]).take 4) ∧
     readFrame (toLE4 5 ++ [1, 2]) = Except.error ReadErr.truncatedFrame) ∧
    (readFrame (toLE4 1 ++ [9]) = Except.ok ([9], []) ∧
     ([9] : List Nat).length = fromLE4 ((toLE4 1 ++ [9]).take 4) ∧
     toLE4 1 ++ [9] = (toLE4 1 ++ [9]).take 4 ++ [9] ++ []) :=
  ⟨⟨by decide, c4_read_failures.1 [0, 1] (by decide)⟩,
   ⟨by decide, by decide, c4_read_failures.2.1 (toLE4 5 ++ [1, 2]) (by decide) (by decide)⟩,
   ⟨by rfl, c4_read_failures.2.2 (toLE4 1 ++ [9]) [9] [] (by rfl)⟩⟩

/-- C8 counterexample: neither read path has any length cap — a frame
declaring 2^31 payload bytes (far beyond a tens-of-megabytes cap such
as 100 MiB = 104857600 bytes) is read successfully in full rather
than rejected. -/
theorem c8_counterexample :
    readFrame (toLE4 2147483648 ++ List.replicate 2147483648 97)
      = Except.ok (List.replicate 2147483648 97, []) ∧
    104857600 < 2147483648 := by
  constructor
  · have h := readFrame_exact (List.replicate 2147483648 97)
      (by rw [List.length_replicate]; norm_num)
    rwa [List.length_replicate] at h
  · norm_num

/-- C8 amended: the code enforces no cap at all — every well-formed
frame whose declared length is below 2^32 (the range of the 4-byte
prefix) is accepted whole, whatever its size; no too-large failure
mode exists (`ReadErr` has only the closed and truncated cases). -/
theorem c8_no_length_cap (n b : Nat) (h : n < 4294967296) :
    readFrame (toLE4 n ++ List.replicate n b)
      = Except.ok (List.replicate n b, []) := by
  have h2 := readFrame_exact (List.replicate n b) (by simpa using h)
  rwa [List.length_replicate] at h2

/-- Witness for the amended C8 at a 3-byte frame. -/
theorem c8_no_length_cap_witness :
    3 < 4294967296 ∧
    readFrame (toLE4 3 ++ List.replicate 3 7)
      = Except.ok (List.replicate 3 7, []) :=
  ⟨by norm_num, c8_no_length_cap 3 7 (by norm_num)⟩

/-- C2 (code bug): handling `stop_server` does produce exactly the
reply with type `server_stopped` and success `true`, but
`stop_http_server` is a no-op (its body only logs), so the host state
— and with it the running listener — is unchanged: a running server
keeps running and keeps accepting connections. -/
theorem c2_stop_server_reply_but_no_stop (bindOk : Bool) (ts : Int) (h : Host) :
    handleMessage bindOk ts h [("type", J.str "stop_server")]
      = (J.obj [("type", J.str "server_stopped"), ("success", J.bool true)], h) ∧
    (stopHttpServer { serverRunning := true }).serverRunning = true :=
  ⟨rfl, rfl⟩

/-- C9: `start_server` is idempotent.  With the server already
running, the message is a no-op whose reply still reports success and
echoes the port, whatever a fresh bind would have done; and after a
first successful `start_server` from the initial state, a second
identical message succeeds with the state unchanged, regardless of
whether binding the port again would fail. -/
theorem c9_start_server_idempotent :
    (∀ (bindOk : Bool) (ts : Int) (h : Host) (port : J),
       h.serverRunning = true →
       handleMessage bindOk ts h [("type", J.str "start_server"), ("port", port)]
         = (J.obj [("type", J.str "server_started"), ("success", J.bool true),
                   ("port", port)], h)) ∧
    (∀ (bind2 : Bool) (ts1 ts2 : Int) (port : J),
       handleMessage true ts1 hostInit [("type", J.str "start_server"), ("port", port)]
         = (J.obj [("type", J.str "server_started"), ("success", J.bool true),
                   ("port", port)], { serverRunning := true }) ∧
       handleMessage bind2 ts2 { serverRunning := true }
           [("type", J.str "start_server"), ("port", port)]
         = (J.obj [("type", J.str "server_started"), ("success", J.bool true),
                   ("port", port)], { serverRunning := true })) := by
  constructor
  · intro bindOk ts h port hr
    obtain ⟨sr⟩ := h
    cases sr
    · exact Bool.noConfusion hr
    · rfl
  · intro bind2 ts1 ts2 port
    exact ⟨rfl, rfl⟩

/-- Witness for C9: a running host, port 9999, and a bind oracle that
would refuse a fresh bind — the reply still succeeds. -/
theorem c9_start_server_idempotent_witness :
    (Host.mk true).serverRunning = true ∧
    handleMessage false 0 (Host.mk true)
        [("type", J.str "start_server"), ("port", J.int 9999)]
      = (J.obj [("type", J.str "server_started"), ("success", J.bool true),
                ("port", J.int 9999)], Host.mk true) :=
  ⟨rfl, c9_start_server_idempotent.1 false 0 (Host.mk true) (J.int 9999) rfl⟩

/-- C6 counterexample: a POST whose Content-Length header is the
non-numeric string `abc` makes the `int()` at line 47 raise
`ValueError` outside the `try`, so the handler crashes and the
client receives no response at all — in particular neither the peer
envelope's status and body (here a ready 200 reply) nor any 500 JSON
body. -/
theorem c6_counterexample :
    doPOSTMethod (fun _ => [])
        (fun _ => Except.ok (J.obj [("status", J.int 200), ("body", J.obj [])]))
        "/v1/chat" [("Content-Length", "abc")] (some "abc") [123]
      = PostOutcome.crashed ∧
    pyIntOfHeader (some "abc") = none :=
  ⟨rfl, rfl⟩

/-- C6 amended: for every DELETE request, and every POST request
whose Content-Length header is absent or parses as an integer, the
client receives the peer envelope's status and body on success, a 503
with the `Extension communication error: ` body when the exchange
fails, and a 500 with the exception detail on any other local failure
inside the handler's `try` (here: a non-dict peer response); a POST
whose Content-Length header is non-numeric instead raises out of the
handler before the `try`, and the client receives no response at
all. -/
theorem c6_amended_responses :
    (∀ (ser : J → List Nat) (exch : J → Except String J) (path : String)
       (headers : List (String × String)) (clh : Option String)
       (available : List Nat) (n : Int)
       (kvs : List (String × J)) (s : Int) (b : J),
       pyIntOfHeader clh = some n →
       exch (mkHttpEnvelope "POST" path headers
           (cpsToString (utf8DecodeIgnore (pyRead available n))))
         = Except.ok (J.obj kvs) →
       alistGetD kvs "status" (J.int 200) = J.int s →
       alistGetD kvs "body" (J.obj []) = b →
       doPOSTMethod ser exch path headers clh available
         = PostOutcome.response (sendJsonResponse ser s b)) ∧
    (∀ (ser : J → List Nat) (exch : J → Except String J) (path : String)
       (headers : List (String × String)) (clh : Option String)
       (available : List Nat) (n : Int) (d : String),
       pyIntOfHeader clh = some n →
       exch (mkHttpEnvelope "POST" path headers
           (cpsToString (utf8DecodeIgnore (pyRead available n))))
         = Except.error d →
       doPOSTMethod ser exch path headers clh available
         = PostOutcome.response (sendJsonResponse ser 503
             (J.obj [("error", J.str ("Extension communication error: " ++ d))]))) ∧
    (∀ (ser : J → List Nat) (exch : J → Except String J) (path : String)
       (headers : List (String × String)) (clh : Option String)
       (available : List Nat) (n : Int) (v : J),
       pyIntOfHeader clh = some n →
       exch (mkHttpEnvelope "POST" path headers
           (cpsToString (utf8DecodeIgnore (pyRead available n))))
         = Except.ok v →
       (∀ kvs, v ≠ J.obj kvs) →
       doPOSTMethod ser exch path headers clh available
         = PostOutcome.response (sendJsonResponse ser 500
             (J.obj [("error", J.str (pyGetAttrErrMsg v))]))) ∧
    (∀ (ser : J → List Nat) (exch : J → Except String J) (path : String)
       (headers : List (String × String)) (clh : Option String)
       (available : List Nat),
       pyIntOfHeader clh = none →
       doPOSTMethod ser exch path headers clh available = PostOutcome.crashed) ∧
    (∀ (ser : J → List Nat) (exch : J → Except String J) (path : String)
       (headers : List (String × String))
       (kvs : List (String × J)) (s : Int) (b : J),
       exch (mkHttpEnvelope "DELETE" path headers "") = Except.ok (J.obj kvs) →
       alistGetD kvs "status" (J.int 200) = J.int s →
       alistGetD kvs "body" (J.obj []) = b →
       doDELETE ser exch path headers = sendJsonResponse ser s b) ∧
    (∀ (ser : J → List Nat) (exch : J → Except String J) (path : String)
       (headers : List (String × String)) (d : String),
       exch (mkHttpEnvelope "DELETE" path headers "") = Except.error d →
       doDELETE ser exch path headers
         = sendJsonResponse ser 503
             (J.obj [("error", J.str ("Extension communication error: " ++ d))])) ∧
    (∀ (ser : J → List Nat) (exch : J → Except String J) (path : String)
       (headers : List (String × String)) (v : J),
       exch (mkHttpEnvelope "DELETE" path headers "") = Except.ok v →
       (∀ kvs, v ≠ J.obj kvs) →
       doDELETE ser exch path headers
         = sendJsonResponse ser 500 (J.obj [("error", J.str (pyGetAttrErrMsg v))])) := by
  refine ⟨?_, ?_, ?_, ?_, ?_, ?_, ?_⟩
  · intro ser exch path headers clh available n kvs s b hcl hex h1 h2
    simp only [doPOSTMethod, hcl, doPOST, doPOSTTry, bridgeRespond_ok hex h1 h2]
  · intro ser exch path headers clh available n d hcl hex
    simp only [doPOSTMethod, hcl, doPOST, doPOSTTry, bridgeRespond_error hex]
  · intro ser exch path headers clh available n v hcl hex hnv
    simp only [doPOSTMethod, hcl, doPOST, doPOSTTry, bridgeRespond_nonObj hex hnv]
  · intro ser exch path headers clh available hcl
    simp only [doPOSTMethod, hcl]
  · intro ser exch path headers kvs s b hex h1 h2
    simp only [doDELETE, doDELETETry, bridgeRespond_ok hex h1 h2]
  · intro ser exch path headers d hex
    simp only [doDELETE, doDELETETry, bridgeRespond_error hex]
  · intro ser exch path headers v hex hnv
    simp only [doDELETE, doDELETETry, bridgeRespond_nonObj hex hnv]

/-- Witness for the amended C6: a POST with Content-Length `17` and a
failing exchange yields the 503 communication-error reply. -/
theorem c6_amended_responses_witness :
    pyIntOfHeader (some "17") = some 17 ∧
    (fun _ : J => (Except.error "connection lost" : Except String J))
        (mkHttpEnvelope "POST" "/v1/chat" [("Content-Length", "17")]
          (cpsToString (utf8DecodeIgnore (pyRead [123] 17))))
      = Except.error "connection lost" ∧
    doPOSTMethod (fun _ => []) (fun _ => Except.error "connection lost")
        "/v1/chat" [("Content-Length", "17")] (some "17") [123]
      = PostOutcome.response (sendJsonResponse (fun _ => []) 503
          (J.obj [("error",
            J.str ("Extension communication error: " ++ "connection lost"))])) :=
  ⟨by decide, rfl,
   c6_amended_responses.2.1 (fun _ => []) (fun _ => Except.error "connection lost")
     "/v1/chat" [("Content-Length", "17")] (some "17") [123] 17 "connection lost"
     (by decide) rfl⟩

/-- C10: building the POST bridge envelope never fails, because the
request body is decoded with `errors='ignore'`: even for a body that
is not valid UTF-8 (strict decode fails), the envelope carries the
decoded-with-drops body string, the `try` block completes, and with a
well-formed peer response the client receives the success reply — an
invalid-UTF-8 body alone never reaches the 500 branch. -/
theorem c10_invalid_utf8_body_safe (ser : J → List Nat)
    (exch : J → Except String J) (path : String)
    (headers : List (String × String)) (bodyBytes : List Nat)
    (kvs : List (String × J)) (s : Int) (b : J)
    (_hbad : utf8Decode bodyBytes = none)
    (hex : exch (mkHttpEnvelope "POST" path headers
        (cpsToString (utf8DecodeIgnore bodyBytes))) = Except.ok (J.obj kvs))
    (h1 : alistGetD kvs "status" (J.int 200) = J.int s)
    (h2 : alistGetD kvs "body" (J.obj []) = b) :
    doPOSTTry exch path headers bodyBytes = Except.ok (s, b) ∧
    doPOST ser exch path headers bodyBytes = sendJsonResponse ser s b := by
  constructor
  · simp only [doPOSTTry, bridgeRespond_ok hex h1 h2]
  · simp only [doPOST, doPOSTTry, bridgeRespond_ok hex h1 h2]

/-- Witness for C10: the body bytes 72, 255, 105 are not valid UTF-8
(255 can start no sequence); the lenient decode drops the bad byte,
and the request still succeeds with the peer's 204 reply. -/
theorem c10_invalid_utf8_body_safe_witness :
    utf8Decode [72, 255, 105] = none ∧
    utf8DecodeIgnore [72, 255, 105] = [72, 105] ∧
    (doPOSTTry (fun _ => Except.ok (J.obj [("status", J.int 204), ("body", J.obj [])]))
        "/v1/chat" [] [72, 255, 105] = Except.ok (204, J.obj []) ∧
     doPOST (fun _ => []) (fun _ => Except.ok (J.obj [("status", J.int 204), ("body", J.obj [])]))
        "/v1/chat" [] [72, 255, 105]
       = sendJsonResponse (fun _ => []) 204 (J.obj [])) :=
  ⟨by decide, by decide,
   c10_invalid_utf8_body_safe (fun _ => [])
     (fun _ => Except.ok (J.obj [("status", J.int 204), ("body", J.obj [])]))
     "/v1/chat" [] [72, 255, 105] [("status", J.int 204), ("body", J.obj [])]
     204 (J.obj []) (by decide) rfl rfl rfl⟩

/-- C5 counterexample: the frame whose payload is the two bytes of an
opening and a closing brace is valid JSON but lacks any type tag.
The claim expects a reply of type `error`; the host instead replies
with type `unknown` (the channel does stay open). -/
theorem c5_counterexample :
    loopIter jsonLoadsEmptyObj true 0 hostInit (toLE4 2 ++ [123, 125])
      = LoopOutcome.replied
          (J.obj [("type", J.str "unknown"),
                  ("error", J.str "Unknown message type: ")])
          hostInit ∧
    J.str "unknown" ≠ J.str "error" := by
  constructor
  · rfl
  · intro hEq
    have h2 : "unknown" = "error" := J.str.inj hEq
    exact absurd h2 (by decide)

/-- C5 amended: for an inbound frame whose payload is valid UTF-8 but
does not parse as JSON, the host replies with type `error` and detail
`Invalid JSON format` and the loop continues; a payload parsing to a
non-dict JSON value gets a reply of type `error` carrying the
`AttributeError` detail, and the loop continues; a payload parsing to
a dict without a recognized type tag instead gets a reply of type
`unknown` with detail `Unknown message type: ` and the tag, the loop
continuing; and a payload that is not valid UTF-8 terminates the loop
with no reply. -/
theorem c5_malformed_control (jsonLoads : List Nat → Option J) (bindOk : Bool)
    (ts : Int) (h : Host) (stdin payload rest cps : List Nat)
    (hread : readFrame stdin = Except.ok (payload, rest)) :
    (utf8Decode payload = some cps → jsonLoads cps = none →
       loopIter jsonLoads bindOk ts h stdin
         = LoopOutcome.replied
             (J.obj [("type", J.str "error"),
                     ("error", J.str "Invalid JSON format")]) h) ∧
    (∀ v : J, utf8Decode payload = some cps → jsonLoads cps = some v →
       (∀ kvs, v ≠ J.obj kvs) →
       loopIter jsonLoads bindOk ts h stdin
         = LoopOutcome.replied
             (J.obj [("type", J.str "error"),
                     ("error", J.str (pyGetAttrErrMsg v))]) h) ∧
    (∀ kvs : List (String × J), utf8Decode payload = some cps →
       jsonLoads cps = some (J.obj kvs) →
       isTag (alistGetD kvs "type" (J.str "")) "start_server" = false →
       isTag (alistGetD kvs "type" (J.str "")) "stop_server" = false →
       isTag (alistGetD kvs "type" (J.str "")) "ping" = false →
       loopIter jsonLoads bindOk ts h stdin
         = LoopOutcome.replied
             (J.obj [("type", J.str "unknown"),
                     ("error", J.str ("Unknown message type: "
                        ++ pyStrOf (alistGetD kvs "type" (J.str ""))))]) h) ∧
    (utf8Decode payload = none →
       loopIter jsonLoads bindOk ts h stdin = LoopOutcome.halted) := by
  refine ⟨?_, ?_, ?_, ?_⟩
  · intro hdec hparse
    simp [loopIter, hread, hdec, hparse, loopHandle]
  · intro v hdec hparse hnv
    cases v with
    | obj kvs => exact absurd rfl (hnv kvs)
    | null => simp [loopIter, hread, hdec, hparse, loopHandle]
    | bool b => simp [loopIter, hread, hdec, hparse, loopHandle]
    | int n => simp [loopIter, hread, hdec, hparse, loopHandle]
    | str s => simp [loopIter, hread, hdec, hparse, loopHandle]
    | arr xs => simp [loopIter, hread, hdec, hparse, loopHandle]
  · intro kvs hdec hparse h1 h2 h3
    simp [loopIter, hread, hdec, hparse, loopHandle, handleMessage, h1, h2, h3]
  · intro hdec
    simp [loopIter, hread, hdec]

/-- Witness for the amended C5: the one-byte payload `x` is valid
UTF-8 but not valid JSON; the host replies `Invalid JSON format` and
the loop continues. -/
theorem c5_malformed_control_witness :
    readFrame (toLE4 1 ++ [120]) = Except.ok ([120], []) ∧
    utf8Decode [120] = some [120] ∧
    jsonLoadsEmptyObj [120] = none ∧
    loopIter jsonLoadsEmptyObj true 0 hostInit (toLE4 1 ++ [120])
      = LoopOutcome.replied
          (J.obj [("type", J.str "error"),
                  ("error", J.str "Invalid JSON format")]) hostInit :=
  ⟨rfl, rfl, rfl,
   (c5_malformed_control jsonLoadsEmptyObj true 0 hostInit (toLE4 1 ++ [120])
     [120] [] [120] (by rfl)).1 rfl rfl⟩

/-- C7 counterexample: the CORS-preflight OPTIONS response carries no
Content-Length header at all (and no body), so not every response
carries a Content-Length equal to the byte length of a serialized
JSON body. -/
theorem c7_counterexample :
    doOPTIONS.headers.filter (fun p => p.1 == "Content-Length") = [] ∧
    doOPTIONS.body = [] :=
  ⟨rfl, rfl⟩

/-- C7 amended: every response emitted through `send_json_response` —
which is every GET, POST and DELETE response — carries the three CORS
headers and a Content-Length equal to the byte length of the exact
body bytes written; the OPTIONS response carries the three CORS
headers but no body and no Content-Length. -/
theorem c7_cors_and_content_length :
    (∀ (ser : J → List Nat) (status : Int) (data : J),
       (("Access-Control-Allow-Origin", "*")
          ∈ (sendJsonResponse ser status data).headers ∧
        ("Access-Control-Allow-Methods", "GET, POST, PUT, DELETE, OPTIONS")
          ∈ (sendJsonResponse ser status data).headers ∧
        ("Access-Control-Allow-Headers", "Content-Type, Authorization")
          ∈ (sendJsonResponse ser status data).headers) ∧
       ("Content-Length", toString (sendJsonResponse ser status data).body.length)
          ∈ (sendJsonResponse ser status data).headers ∧
       (sendJsonResponse ser status data).body = ser data) ∧
    (∀ (ser : J → List Nat) (path : String) (ts : Int),
       ∃ (s : Int) (d : J), doGET ser path ts = sendJsonResponse ser s d) ∧
    (∀ (ser : J → List Nat) (exch : J → Except String J) (path : String)
       (headers : List (String × String)) (bodyBytes : List Nat),
       ∃ (s : Int) (d : J),
         doPOST ser exch path headers bodyBytes = sendJsonResponse ser s d) ∧
    (∀ (ser : J → List Nat) (exch : J → Except String J) (path : String)
       (headers : List (String × String)),
       ∃ (s : Int) (d : J), doDELETE ser exch path headers = sendJsonResponse ser s d) ∧
    (("Access-Control-Allow-Origin", "*") ∈ doOPTIONS.headers ∧
     ("Access-Control-Allow-Methods", "GET, POST, PUT, DELETE, OPTIONS")
       ∈ doOPTIONS.headers ∧
     ("Access-Control-Allow-Headers", "Content-Type, Authorization")
       ∈ doOPTIONS.headers) := by
  refine ⟨?_, ?_, ?_, ?_, ?_⟩
  · intro ser status data
    refine ⟨⟨?_, ?_, ?_⟩, ?_, rfl⟩ <;> simp [sendJsonResponse, corsHeaders]
  · intro ser path ts
    unfold doGET
    split
    · exact ⟨_, _, rfl⟩
    · exact ⟨_, _, rfl⟩
  · intro ser exch path headers bodyBytes
    unfold doPOST
    cases doPOSTTry exch path headers bodyBytes with
    | ok p =>
      obtain ⟨s, b⟩ := p
      exact ⟨s, b, rfl⟩
    | error e => exact ⟨500, J.obj [("error", J.str e)], rfl⟩
  · intro ser exch path headers
    unfold doDELETE
    cases doDELETETry exch path headers with
    | ok p =>
      obtain ⟨s, b⟩ := p
      exact ⟨s, b, rfl⟩
    | error e => exact ⟨500, J.obj [("error", J.str e)], rfl⟩
  · exact ⟨by simp [doOPTIONS, corsHeaders], by simp [doOPTIONS, corsHeaders],
      by simp [doOPTIONS, corsHeaders]⟩

/-- C1 (code bug): the source has two independent readers of the
shared stdin stream.  A state is reachable in which the main
messaging loop is blocked in its read (line 187) while an HTTP
handler thread is simultaneously blocked in `send_to_extension`'s
read (line 112) — one successful `start_server` followed by one
POST reaches it — so the control loop and a bridge-response wait do
read the stream concurrently.  Moreover nothing classifies inbound
frames by the pending exchange: if the loop side wins the race for
the peer's bridge-response frame (a dict with only `status` and
`body`), it dispatches it as a control message and replies
`unknown`. -/
theorem c1_dual_reader_violation :
    (∃ s : BridgeSys, Reach s ∧ s.ctl = CtlLoc.reading ∧ 0 < s.bridgeReaders) ∧
    (loopHandle true 0 hostInit
        (some (J.obj [("status", J.int 200), ("body", J.obj [])]))).1
      = J.obj [("type", J.str "unknown"),
               ("error", J.str "Unknown message type: ")] := by
  constructor
  · refine ⟨{ ctl := CtlLoc.reading, bridgeReaders := 1, serverRunning := true },
      ?_, rfl, Nat.one_pos⟩
    have h1 : BStep initSys
        { ctl := CtlLoc.dispatching, bridgeReaders := 0, serverRunning := false } :=
      BStep.frameToLoop initSys rfl
    have h2 : BStep
        { ctl := CtlLoc.dispatching, bridgeReaders := 0, serverRunning := false }
        { ctl := CtlLoc.reading, bridgeReaders := 0, serverRunning := true } :=
      BStep.handleStart _ rfl
    have h3 : BStep
        { ctl := CtlLoc.reading, bridgeReaders := 0, serverRunning := true }
        { ctl := CtlLoc.reading, bridgeReaders := 1, serverRunning := true } :=
      BStep.httpExchangeBegins _ rfl
    exact Relation.ReflTransGen.head h1
      (Relation.ReflTransGen.head h2 (Relation.ReflTransGen.single h3))
  · rfl

end HttpHost
